import Mathlib

/-!
Verification of the OEM inversion driver of this repository
(src/m_oem.cc together with number_density from src/atm_funcs.cc and the
bounds-checked tensor access contract of src/matpackIII.h).

The embedding below translates the driver and the state codec
(setup_xa, x2arts_std, oem) into Lean.  Numeric values are rationals.
A C++ throw of runtime_error is modelled as Except.error with a
runtimeError message; a failing assert (the bounds assertions of the
tensor and vector classes, and the assert(0) fallbacks of the codec)
is modelled as Except.error Err.assertionFailure.  NaN-initialised
diagnostic slots are modelled as Option values, none standing for NaN;
comparisons against NaN are false, as in IEEE arithmetic.

External collaborators that are not part of the sampled sources
(the forward-model agenda, the iterative solvers of oem.cc, the grid
interpolation primitives) are modelled from the spec as opaque
parameters or small spec-faithful definitions; each such definition
carries a doc comment starting with "Modelled from the spec:".
-/

namespace Arts

/-- Numeric vectors (the Vector class of matpackI); a value of the
workspace-variable kind y, x, xa, p_grid and friends. -/
abbrev Vec := List ℚ

/-- Dense matrix with explicit dimensions; only the dimensions and the
entries reachable through the quadratic form are relevant to the claims. -/
structure Mat where
  nrows : ℕ
  ncols : ℕ
  entry : ℕ → ℕ → ℚ

/-- The empty 0 x 0 matrix produced by resize(0,0) when clear_matrices
is requested in oem. -/
def emptyMat : Mat := { nrows := 0, ncols := 0, entry := fun _ _ => 0 }

/-- Rank-3 tensor (matpackIII.h); dimensions are pages, rows, columns. -/
structure Tensor3 where
  npages : ℕ
  nrows : ℕ
  ncols : ℕ
  entry : ℕ → ℕ → ℕ → ℚ

/-- Rank-4 tensor; dimensions are books, pages, rows, columns.
Modelled from the spec: the 4-D mixing-ratio field store (matpackIV is
not among the sampled sources); element access follows the same bounds
assertion contract as ConstTensor3View in matpackIII.h. -/
structure Tensor4 where
  nbooks : ℕ
  npages : ℕ
  nrows : ℕ
  ncols : ℕ
  entry : ℕ → ℕ → ℕ → ℕ → ℚ

/-- Outcome of a fatal condition inside a call: a thrown runtime_error
carrying a message, or a failed assert (which carries none). -/
inductive Err where
  | runtimeError (msg : String)
  | assertionFailure
deriving DecidableEq

/-- Element read of a Tensor3; the asserts of
ConstTensor3View.operator() (matpackIII.h lines 172-185) become the
none result. -/
def Tensor3.get (t : Tensor3) (p r c : ℕ) : Option ℚ :=
  if p < t.npages ∧ r < t.nrows ∧ c < t.ncols then some (t.entry p r c) else none

/-- Element read of a Tensor4 with the analogous bounds assertions. -/
def Tensor4.get (t : Tensor4) (b p r c : ℕ) : Option ℚ :=
  if b < t.nbooks ∧ p < t.npages ∧ r < t.nrows ∧ c < t.ncols then
    some (t.entry b p r c)
  else none

/-- Element write of a Tensor4 with bounds assertions; returns the
updated tensor. -/
def Tensor4.set (t : Tensor4) (b p r c : ℕ) (v : ℚ) : Option Tensor4 :=
  if b < t.nbooks ∧ p < t.npages ∧ r < t.nrows ∧ c < t.ncols then
    some { t with entry := fun b2 p2 r2 c2 =>
            if b2 = b ∧ p2 = p ∧ r2 = r ∧ c2 = c then v else t.entry b2 p2 r2 c2 }
  else none

/-- The book view vmr_field(isp, joker, joker, joker) of a Tensor4. -/
def Tensor4.book (t : Tensor4) (b : ℕ) : Tensor3 :=
  { npages := t.npages, nrows := t.nrows, ncols := t.ncols,
    entry := fun p r c => t.entry b p r c }

/-- Assignment vmr_field(isp, joker, joker, joker) = v; the view
assignment asserts that the dimensions agree. -/
def Tensor4.setBook (t : Tensor4) (b : ℕ) (v : Tensor3) : Option Tensor4 :=
  if b < t.nbooks ∧ v.npages = t.npages ∧ v.nrows = t.nrows ∧ v.ncols = t.ncols then
    some { t with entry := fun b2 p r c =>
            if b2 = b then v.entry p r c else t.entry b2 p r c }
  else none

/-- Bounds-checked vector element read (Vector operator[]). -/
def vecGet (v : Vec) (i : ℕ) : Option ℚ :=
  if i < v.length then some (v.getD i 0) else none

/-- Bounds-checked vector element write. -/
def vecSet (v : Vec) (i : ℕ) (x : ℚ) : Option Vec :=
  if i < v.length then some (v.set i x) else none

/-- The subvector x[Range(start, np)]; the Range is asserted to lie
inside the vector. -/
def subRange (v : Vec) (start np : ℕ) : Option Vec :=
  if start + np ≤ v.length then some ((v.drop start).take np) else none

/-- Assignment of a value list into x[Range(start, np)]; asserts that
the range lies inside the vector and that the sizes agree. -/
def writeRange (v : Vec) (start np : ℕ) (vals : Vec) : Option Vec :=
  if start + np ≤ v.length ∧ vals.length = np then
    some (v.take start ++ vals ++ v.drop (start + np))
  else none

/-- Lifts an assert-checked Option computation into the fatal-outcome
monad: a failed assert aborts the call. -/
def ofOpt : Option α → Except Err α
  | some a => Except.ok a
  | none => Except.error Err.assertionFailure

/-- Fold over a list in the Option monad; the loop skeleton used for
the element-copy loops of the codec (a none from the body, that is a
failed assert, aborts the whole loop). -/
def optFoldl (f : β → α → Option β) : β → List α → Option β
  | b, [] => some b
  | b, a :: l =>
    match f b a with
    | none => none
    | some b2 => optFoldl f b2 l

/-- The triple loop pattern of the field-copy loops in setup_xa and
x2arts_std, transcribed with the <= bounds of the source: i3 runs from
0 to C inclusive (outermost), i2 from 0 to R inclusive, i1 from 0 to P
inclusive (innermost).  P, R, C are the npages, nrows, ncols of the
tensor being traversed. -/
def loop3le (P R C : ℕ) (body : β → ℕ → ℕ → ℕ → Option β) (init : β) : Option β :=
  optFoldl
    (fun st i3 =>
      optFoldl
        (fun st2 i2 =>
          optFoldl (fun st3 i1 => body st3 i1 i2 i3) st2 (List.range (P + 1)))
        st (List.range (R + 1)))
    init (List.range (C + 1))

/-- Flattening of a Tensor3 into a vector, pages index fastest.
Modelled from the spec: flat (math_funcs of this repository, not among
the sampled sources) copies a regridded field into the matching block
of xa; the cell order matches the (i1 innermost, i3 outermost) order of
the number-density loop of setup_xa. -/
def Tensor3.flatten (t : Tensor3) : Vec :=
  (List.range t.ncols).foldr
    (fun i3 acc =>
      (List.range t.nrows).foldr
        (fun i2 acc2 =>
          (List.range t.npages).foldr (fun i1 acc3 => t.entry i1 i2 i3 :: acc3) acc2)
        acc)
    []

/-- Inverse of flatten.  Modelled from the spec: reshape (not among the
sampled sources) pours a state-vector block into a tensor of the given
dimensions and asserts that the sizes agree. -/
def reshapeT3 (P R C : ℕ) (vals : Vec) : Option Tensor3 :=
  if vals.length = P * R * C then
    some { npages := P, nrows := R, ncols := C,
           entry := fun p r c => vals.getD (p + P * (r + R * c)) 0 }
  else none

/-- Binary minimum on rationals, written out so that it evaluates. -/
def qmin (a b : ℚ) : ℚ := if a ≤ b then a else b

/-- Minimum of a vector, as the C++ min over a Vector; only ever used
on nonempty vectors by the validated code paths. -/
def vecMin : Vec → ℚ
  | [] => 0
  | x :: xs => xs.foldl qmin x

/-- Elementwise difference y - yf. -/
def vecSub (a b : Vec) : Vec := List.zipWith (fun x y => x - y) a b

/-- The quadratic form d^T S d. -/
def quadForm (d : Vec) (S : Mat) : ℚ :=
  ((List.range S.nrows).map
    (fun i =>
      ((List.range S.ncols).map
        (fun j => d.getD i 0 * S.entry i j * d.getD j 0)).sum)).sum

/-- Modelled from the spec: oem_cost_y (oem.cc, not among the sampled
sources) computes the data term of the Bayesian cost,
(y - yf)^T Sy^-1 (y - yf), normalized by the measurement dimension m
(section 4.4 of the design). -/
def oem_cost_y (y yf : Vec) (so_inv : Mat) (m : ℚ) : ℚ :=
  quadForm (vecSub y yf) so_inv / m

/-- Modelled from the spec: the Boltzmann constant, a process-wide
physical constant consumed through an extern declaration
(design note section 9). -/
def BOLTZMAN_CONST : ℚ := 1380658 / 10 ^ 29

/-- Number density at pressure p and temperature t
(src/atm_funcs.cc lines 157-162). -/
def number_density (p t : ℚ) : ℚ := p / t / BOLTZMAN_CONST

/-- Modelled from the spec: the externally defined main-tag identifier
of temperature retrieval quantities (extern const String
TEMPERATURE_MAINTAG in m_oem.cc). -/
def TEMPERATURE_MAINTAG : String := "Atmospheric temperatures"

/-- Modelled from the spec: the externally defined main-tag identifier
of absorption-species retrieval quantities (extern const String
ABSSPECIES_MAINTAG in m_oem.cc). -/
def ABSSPECIES_MAINTAG : String := "Absorption species"

/-- One retrieval quantity: main tag, sub tag (species name), unit
mode, and its own grids (pressure grid first). -/
structure RetrievalQuantity where
  maintag : String
  subtag : String
  mode : String
  grids : List Vec
deriving DecidableEq

/-- Modelled from the spec: species lookup
(array_species_tag_from_string followed by chk_contains, both outside
the sampled sources); yields the index of the sub tag of the quantity
inside abs_species, or a descriptive fatal error when absent. -/
def chk_contains_species (species : List String) (tag : String) : Except Err ℕ :=
  match species.findIdx? (fun s => s = tag) with
  | some i => Except.ok i
  | none => Except.error (Err.runtimeError "The species was not found in *abs_species*.")

/-- The error message of the unhandled-main-tag fallback of both codec
directions (m_oem.cc lines 396-402 and 525-531). -/
def unhandledMsg (tag : String) : String :=
  "Found a retrieval quantity that is not yet handled by\ninternal retrievals: " ++ tag

/-- Grid position: bracketing source index and interpolation fraction
(data model, section 3 of the design). -/
structure GridPos where
  idx : ℕ
  fd : ℚ
deriving DecidableEq

/-- Modelled from the spec: the grid interpolation collaborators,
consumed as opaque operations with defined contracts (sections 1, 4.1
and 6 of the design): grid-position construction for ordinary grids
(gridpos), for pressure grids (p2gridpos), and field regridding
(regrid_atmfield_by_gp, which produces the regridded field). -/
structure Interp where
  gridpos : Vec → Vec → ℚ → List GridPos
  p2gridpos : Vec → Vec → ℚ → List GridPos
  regrid : ℕ → Tensor3 → List GridPos → List GridPos → List GridPos → Tensor3

/-- Modelled from the spec: the degenerate length-1 retrieval grid maps
every target point onto the single value (section 4.1); gp4length1grid
is not among the sampled sources. -/
def gp4length1grid (n : ℕ) : List GridPos :=
  List.replicate n { idx := 0, fd := 0 }

/-- Modelled from the spec: jacobian_type_extrapol adjusts grid
positions for unbounded extrapolation (section 4.1); its output is only
ever consumed by the opaque regrid operation, so it is kept abstractly
as the identity adjustment. -/
def jacobian_type_extrapol (gps : List GridPos) : List GridPos := gps

/-- Grid positions for regridding atmospheric fields onto the grids of
a retrieval quantity, extrapolation factor 0
(m_oem.cc lines 164-192). -/
def get_gp_atmgrids_to_rq (interp : Interp) (rq : RetrievalQuantity)
    (atmosphere_dim : ℕ) (p_grid lat_grid lon_grid : Vec) :
    List GridPos × List GridPos × List GridPos :=
  let gp_p := interp.p2gridpos p_grid (rq.grids.getD 0 []) 0
  let gp_lat := if 2 ≤ atmosphere_dim then interp.gridpos lat_grid (rq.grids.getD 1 []) 0 else []
  let gp_lon := if 3 ≤ atmosphere_dim then interp.gridpos lon_grid (rq.grids.getD 2 []) 0 else []
  (gp_p, gp_lat, gp_lon)

/-- Result record of get_gp_rq_to_atmgrids: grid positions on the
atmospheric grids plus the lengths of the retrieval grids (1 for
dimensions beyond atmosphere_dim). -/
structure GpInfo where
  gp_p : List GridPos
  gp_lat : List GridPos
  gp_lon : List GridPos
  n_p : ℕ
  n_lat : ℕ
  n_lon : ℕ

/-- Grid positions for regridding from the grids of a retrieval
quantity back onto the atmospheric grids, with an effectively infinite
extrapolation factor and the length-1 special case
(m_oem.cc lines 223-285). -/
def get_gp_rq_to_atmgrids (interp : Interp) (rq : RetrievalQuantity)
    (atmosphere_dim : ℕ) (p_grid lat_grid lon_grid : Vec) : GpInfo :=
  let inf_proxy : ℚ := 10 ^ 99
  let n_p := (rq.grids.getD 0 []).length
  let gp_p :=
    if 1 < n_p then jacobian_type_extrapol (interp.p2gridpos (rq.grids.getD 0 []) p_grid inf_proxy)
    else gp4length1grid p_grid.length
  if 2 ≤ atmosphere_dim then
    let n_lat := (rq.grids.getD 1 []).length
    let gp_lat :=
      if 1 < n_lat then jacobian_type_extrapol (interp.gridpos (rq.grids.getD 1 []) lat_grid inf_proxy)
      else gp4length1grid lat_grid.length
    if 3 ≤ atmosphere_dim then
      let n_lon := (rq.grids.getD 2 []).length
      let gp_lon :=
        if 1 < n_lon then jacobian_type_extrapol (interp.gridpos (rq.grids.getD 2 []) lon_grid inf_proxy)
        else gp4length1grid lon_grid.length
      { gp_p := gp_p, gp_lat := gp_lat, gp_lon := gp_lon,
        n_p := n_p, n_lat := n_lat, n_lon := n_lon }
    else
      { gp_p := gp_p, gp_lat := gp_lat, gp_lon := [],
        n_p := n_p, n_lat := n_lat, n_lon := 1 }
  else
    { gp_p := gp_p, gp_lat := [], gp_lon := [],
      n_p := n_p, n_lat := 1, n_lon := 1 }

/-- Processing of one retrieval quantity by setup_xa (the body of the
loop in m_oem.cc lines 325-403): writes the block of the quantity into
xa and returns the updated vector.  jiq is the pair
(ji[q][0], ji[q][1]); np is its block length. -/
def setupXaQ (interp : Interp) (rq : RetrievalQuantity) (jiq : ℕ × ℕ)
    (atmosphere_dim : ℕ) (p_grid lat_grid lon_grid : Vec)
    (t_field : Tensor3) (vmr_field : Tensor4) (abs_species : List String)
    (xa : Vec) : Except Err Vec :=
  let np := jiq.2 + 1 - jiq.1
  if rq.maintag = TEMPERATURE_MAINTAG then
    let gps := get_gp_atmgrids_to_rq interp rq atmosphere_dim p_grid lat_grid lon_grid
    let t_x := interp.regrid atmosphere_dim t_field gps.1 gps.2.1 gps.2.2
    ofOpt (writeRange xa jiq.1 np t_x.flatten)
  else if rq.maintag = ABSSPECIES_MAINTAG then
    match chk_contains_species abs_species rq.subtag with
    | Except.error e => Except.error e
    | Except.ok isp =>
      if rq.mode = "rel" then
        ofOpt (writeRange xa jiq.1 np (List.replicate np 1))
      else if rq.mode = "vmr" then
        let gps := get_gp_atmgrids_to_rq interp rq atmosphere_dim p_grid lat_grid lon_grid
        if isp < vmr_field.nbooks then
          let vmr_x := interp.regrid atmosphere_dim (vmr_field.book isp) gps.1 gps.2.1 gps.2.2
          ofOpt (writeRange xa jiq.1 np vmr_x.flatten)
        else Except.error Err.assertionFailure
      else if rq.mode = "nd" then
        let gps := get_gp_atmgrids_to_rq interp rq atmosphere_dim p_grid lat_grid lon_grid
        if isp < vmr_field.nbooks then
          let vmr_x := interp.regrid atmosphere_dim (vmr_field.book isp) gps.1 gps.2.1 gps.2.2
          let t_x := interp.regrid atmosphere_dim t_field gps.1 gps.2.1 gps.2.2
          ofOpt
            ((loop3le vmr_x.npages vmr_x.nrows vmr_x.ncols
                (fun st i1 i2 i3 => do
                  let v ← vmr_x.get i1 i2 i3
                  let pv ← vecGet (rq.grids.getD 0 []) i1
                  let tv ← t_x.get i1 i2 i3
                  let xa2 ← vecSet st.1 (jiq.1 + st.2) (v * number_density pv tv)
                  pure (xa2, st.2 + 1))
                (xa, 0)).map (fun st => st.1))
        else Except.error Err.assertionFailure
      else Except.error Err.assertionFailure
  else Except.error (Err.runtimeError (unhandledMsg rq.maintag))

/-- The loop of setup_xa over the retrieval quantities; ji is consumed
alongside jq, and running out of index pairs is the failed Array bounds
assert of ji[q]. -/
def setupXaLoop (interp : Interp) (atmosphere_dim : ℕ)
    (p_grid lat_grid lon_grid : Vec) (t_field : Tensor3) (vmr_field : Tensor4)
    (abs_species : List String) :
    List RetrievalQuantity → List (ℕ × ℕ) → Vec → Except Err Vec
  | [], _, xa => Except.ok xa
  | _ :: _, [], _ => Except.error Err.assertionFailure
  | q :: qs, jiq :: jis, xa =>
    match setupXaQ interp q jiq atmosphere_dim p_grid lat_grid lon_grid
        t_field vmr_field abs_species xa with
    | Except.error e => Except.error e
    | Except.ok xa2 =>
      setupXaLoop interp atmosphere_dim p_grid lat_grid lon_grid t_field vmr_field
        abs_species qs jis xa2

/-- Creates xa for the inversion methods (m_oem.cc lines 307-404):
sizes xa from the last jacobian index pair and fills one block per
retrieval quantity. -/
def setup_xa (interp : Interp) (jq : List RetrievalQuantity) (ji : List (ℕ × ℕ))
    (atmosphere_dim : ℕ) (p_grid lat_grid lon_grid : Vec)
    (t_field : Tensor3) (vmr_field : Tensor4) (abs_species : List String) :
    Except Err Vec :=
  if jq.length = 0 then Except.error Err.assertionFailure
  else
    match ji.get? (jq.length - 1) with
    | none => Except.error Err.assertionFailure
    | some lastji =>
      setupXaLoop interp atmosphere_dim p_grid lat_grid lon_grid t_field vmr_field
        abs_species jq ji (List.replicate (lastji.2 + 1) 0)

/-- Processing of one retrieval quantity by x2arts_std (the body of the
loop in m_oem.cc lines 438-532): maps the block of the quantity in x
back onto the atmospheric fields. -/
def x2artsQ (interp : Interp) (rq : RetrievalQuantity) (jiq : ℕ × ℕ) (x : Vec)
    (atmosphere_dim : ℕ) (p_grid lat_grid lon_grid : Vec)
    (abs_species : List String) (vmr_field : Tensor4) (t_field : Tensor3) :
    Except Err (Tensor4 × Tensor3) :=
  let np := jiq.2 + 1 - jiq.1
  if rq.maintag = TEMPERATURE_MAINTAG then
    let g := get_gp_rq_to_atmgrids interp rq atmosphere_dim p_grid lat_grid lon_grid
    match subRange x jiq.1 np with
    | none => Except.error Err.assertionFailure
    | some xind =>
      match reshapeT3 g.n_p g.n_lat g.n_lon xind with
      | none => Except.error Err.assertionFailure
      | some t_x =>
        let t := interp.regrid atmosphere_dim t_x g.gp_p g.gp_lat g.gp_lon
        Except.ok (vmr_field, t)
  else if rq.maintag = ABSSPECIES_MAINTAG then
    match chk_contains_species abs_species rq.subtag with
    | Except.error e => Except.error e
    | Except.ok isp =>
      let g := get_gp_rq_to_atmgrids interp rq atmosphere_dim p_grid lat_grid lon_grid
      if rq.mode = "rel" then
        ofOpt (do
          let xind ← subRange x jiq.1 np
          let fac_x ← reshapeT3 g.n_p g.n_lat g.n_lon xind
          let factor := interp.regrid atmosphere_dim fac_x g.gp_p g.gp_lat g.gp_lon
          let vf ←
            loop3le vmr_field.npages vmr_field.nrows vmr_field.ncols
              (fun vf i1 i2 i3 => do
                let cur ← vf.get isp i1 i2 i3
                let f ← factor.get i1 i2 i3
                vf.set isp i1 i2 i3 (cur * f))
              vmr_field
          pure (vf, t_field))
      else if rq.mode = "vmr" then
        ofOpt (do
          let xind ← subRange x jiq.1 np
          let vmr_x ← reshapeT3 g.n_p g.n_lat g.n_lon xind
          let vmr := interp.regrid atmosphere_dim vmr_x g.gp_p g.gp_lat g.gp_lon
          let vf ← vmr_field.setBook isp vmr
          pure (vf, t_field))
      else if rq.mode = "nd" then
        ofOpt (do
          let xind ← subRange x jiq.1 np
          let nd_x ← reshapeT3 g.n_p g.n_lat g.n_lon xind
          let nd := interp.regrid atmosphere_dim nd_x g.gp_p g.gp_lat g.gp_lon
          let vf ←
            loop3le vmr_field.npages vmr_field.nrows vmr_field.ncols
              (fun vf i1 i2 i3 => do
                let ndv ← nd.get i1 i2 i3
                let pv ← vecGet p_grid i1
                let tv ← t_field.get i1 i2 i3
                vf.set isp i1 i2 i3 (ndv / number_density pv tv))
              vmr_field
          pure (vf, t_field))
      else Except.error Err.assertionFailure
  else Except.error (Err.runtimeError (unhandledMsg rq.maintag))

/-- The loop of x2arts_std over the retrieval quantities. -/
def x2artsLoop (interp : Interp) (x : Vec) (atmosphere_dim : ℕ)
    (p_grid lat_grid lon_grid : Vec) (abs_species : List String) :
    List RetrievalQuantity → List (ℕ × ℕ) → Tensor4 × Tensor3 →
    Except Err (Tensor4 × Tensor3)
  | [], _, st => Except.ok st
  | _ :: _, [], _ => Except.error Err.assertionFailure
  | q :: qs, jiq :: jis, st =>
    match x2artsQ interp q jiq x atmosphere_dim p_grid lat_grid lon_grid
        abs_species st.1 st.2 with
    | Except.error e => Except.error e
    | Except.ok st2 =>
      x2artsLoop interp x atmosphere_dim p_grid lat_grid lon_grid abs_species qs jis st2

/-- Workspace method x2arts_std (m_oem.cc lines 413-533): checks the
state-vector length against the last jacobian index pair, then maps
each block of x back onto vmr_field and t_field. -/
def x2arts_std (interp : Interp) (jq : List RetrievalQuantity) (ji : List (ℕ × ℕ))
    (x : Vec) (atmosphere_dim : ℕ) (p_grid lat_grid lon_grid : Vec)
    (abs_species : List String) (vmr_field : Tensor4) (t_field : Tensor3) :
    Except Err (Tensor4 × Tensor3) :=
  if jq.length = 0 then Except.error Err.assertionFailure
  else
    match ji.get? (jq.length - 1) with
    | none => Except.error Err.assertionFailure
    | some lastji =>
      if x.length = lastji.2 + 1 then
        x2artsLoop interp x atmosphere_dim p_grid lat_grid lon_grid abs_species
          jq ji (vmr_field, t_field)
      else
        Except.error (Err.runtimeError
          "Length of *x* does not match information in *jacobian_quantities*.")

/-- Modelled from the spec: the forward-model adapter (section 4.3).
A call gives the simulated measurement and, when the Bool flag is set,
the Jacobian path of the agenda is taken (jacobian computed); the
adapter is deterministic for a fixed state vector. -/
abbrev Fm := Vec → Bool → Vec × Mat

/-- Observable steps of one oem run: executions of
inversion_iterate_agenda made directly by the oem body (with the flag
saying whether the Jacobian path was requested), and the hand-off to
one of the iterative solvers (which owns all further iterations). -/
inductive Event where
  | fmCall (jacobianPath : Bool)
  | solverCall (method : String)
deriving DecidableEq

/-- Modelled from the spec: the outcome of one iterative-solver run
(oem_linear_nform, oem_gauss_newton, oem_levenberg_marquardt live in
oem.cc, outside the sampled sources): a termination code, the solution
and gain matrix, the final simulated measurement and Jacobian, the two
cost terms, and the number of iterations used (sections 4.5 and 6). -/
structure SolverOutcome where
  code : ℚ
  x : Vec
  dxdy : Mat
  jacobian : Mat
  yf : Vec
  cost_y : ℚ
  cost_x : ℚ
  used_iter : ℕ

/-- The three solver back ends oem dispatches on. -/
structure Solvers where
  li : SolverOutcome
  gn : SolverOutcome
  lm : SolverOutcome

/-- All inputs of the workspace method oem (m_oem.cc lines 538-569),
generic inputs included. -/
structure OemIn where
  y : Vec
  covmat_sx_inv : Mat
  covmat_so_inv : Mat
  jacobian_do : ℤ
  jacobian_quantities : List RetrievalQuantity
  jacobian_indices : List (ℕ × ℕ)
  atmosphere_dim : ℕ
  p_grid : Vec
  lat_grid : Vec
  lon_grid : Vec
  t_field : Tensor3
  vmr_field : Tensor4
  abs_species : List String
  method : String
  max_start_cost : ℚ
  x_norm : Vec
  max_iter : ℤ
  stop_dx : ℚ
  ml_ga_settings : Vec
  clear_matrices : ℤ
  display_progress : ℤ

/-- The outputs of oem.  x and dxdy are Option because the
high-start-cost branch leaves them undefined (never resized); NaN
diagnostic slots are none. -/
structure OemOut where
  x : Option Vec
  xa : Vec
  yf : Vec
  jacobian : Mat
  dxdy : Option Mat
  oem_diagnostics : List (Option ℚ)
  ml_ga_history : List (Option ℚ)

/-- Comparison of a possibly-NaN value against a number; a NaN compares
false, as the C++ comparison of the NaN-initialised cost does. -/
def optGT : Option ℚ → ℚ → Bool
  | none, _ => false
  | some a, b => decide (b < a)

/-- Evaluates an ordered list of (violated, message) checks: the first
violated check throws its runtime_error, as the if-throw chain of the
source does. -/
def firstError : List (Bool × String) → Except Err Unit
  | [] => Except.ok ()
  | p :: rest => if p.1 then Except.error (Err.runtimeError p.2) else firstError rest

/-- The input-validation conditions of oem (m_oem.cc lines 576-618),
condition for condition in source order, each paired with the message
of the runtime_error it throws when violated. -/
def oemCheckItems (inp : OemIn) : List (Bool × String) :=
  [(decide (inp.jacobian_do = 0),
    "Jacobian calculations must be turned on (but jacobian_do=0)."),
   (decide (inp.jacobian_quantities.length = 0),
    "Jacobian quantities are empty, no inversion to do!."),
   (decide (inp.covmat_sx_inv.ncols ≠ inp.covmat_sx_inv.nrows),
    "*covmat_sx_inv* must be a square matrix."),
   (decide (inp.covmat_so_inv.ncols ≠ inp.covmat_so_inv.nrows),
    "*covmat_so_inv* must be a square matrix."),
   (decide (inp.covmat_so_inv.ncols ≠ inp.y.length),
    "Inconsistency in size between *y* and *covmat_so_inv*."),
   (decide (inp.jacobian_indices.length ≠ inp.jacobian_quantities.length),
    "Different number of elements in *jacobian_quantities* and *jacobian_indices*."),
   (decide ((inp.jacobian_indices.getD (inp.jacobian_quantities.length - 1) (0, 0)).2 + 1
      ≠ inp.covmat_sx_inv.nrows),
    "Size of *covmat_sx_inv* do not agree with Jacobian information (*jacobian_indices*)."),
   (decide (¬(inp.method = "li" ∨ inp.method = "gn" ∨ inp.method = "ml" ∨ inp.method = "lm")),
    "Valid options for *method* are \"nl\", \"gn\" and \"ml\" or \"lm\"."),
   (decide (¬(inp.x_norm.length = 0 ∨ inp.x_norm.length = inp.covmat_sx_inv.nrows)),
    "The vector *x_norm* must have length 0 or match *covmat_sx_inv*."),
   (decide (0 < inp.x_norm.length ∧ vecMin inp.x_norm ≤ 0),
    "All values in *x_norm* must be > 0."),
   (decide (inp.max_iter ≤ 0),
    "The argument *max_iter* must be > 0."),
   (decide (inp.stop_dx ≤ 0),
    "The argument *stop_dx* must be > 0."),
   (decide (inp.method = "ml" ∧ inp.ml_ga_settings.length ≠ 6),
    "When using \"ml\", *ml_ga_setings* must be a vector of length 6."),
   (decide (inp.method = "ml" ∧ vecMin inp.ml_ga_settings < 0),
    "The vector *ml_ga_setings* can not contain any negative value."),
   (decide (inp.clear_matrices < 0 ∨ 1 < inp.clear_matrices),
    "Valid options for *clear_matrices* are 0 and 1."),
   (decide (inp.display_progress < 0 ∨ 1 < inp.display_progress),
    "Valid options for *display_progress* are 0 and 1.")]

/-- The input-validation chain of oem: the first violated check of
oemCheckItems throws. -/
def oemChecks (inp : OemIn) : Except Err Unit :=
  firstError (oemCheckItems inp)

/-- The body of oem after validation and setup_xa succeeded
(m_oem.cc lines 626-732): a-priori forward call with the Jacobian path,
diagnostics initialisation, conditional start cost, the high-start-cost
guard, and otherwise the dispatch to the selected solver. -/
def oemAfterSetup (fm : Fm) (solv : Solvers) (inp : OemIn) (xa : Vec) :
    Except Err OemOut × List Event :=
  let yf := (fm xa true).1
  let jac := (fm xa true).2
  let hist : List (Option ℚ) :=
    if inp.method = "ml" then List.replicate inp.max_iter.toNat none else []
  let cost_start : Option ℚ :=
    if inp.method = "ml" ∨ inp.method = "lm" ∨ inp.display_progress ≠ 0 ∨
        0 < inp.max_start_cost then
      some (oem_cost_y inp.y yf inp.covmat_so_inv (inp.y.length : ℚ))
    else none
  if 0 < inp.max_start_cost ∧ optGT cost_start inp.max_start_cost = true then
    (Except.ok
      { x := none, xa := xa, yf := yf, jacobian := jac, dxdy := none,
        oem_diagnostics := [some 99, cost_start, none, none, none],
        ml_ga_history := hist },
     [Event.fmCall true])
  else
    let o := if inp.method = "li" then solv.li else if inp.method = "gn" then solv.gn else solv.lm
    let diag : List (Option ℚ) :=
      if inp.method = "li" then
        [some o.code, cost_start, some (o.cost_y + o.cost_x), some o.cost_y, some 1]
      else if inp.method = "gn" then
        [some o.code, cost_start, some (o.cost_y + o.cost_x), some o.cost_y,
         some (o.used_iter : ℚ)]
      else
        [none, cost_start, none, none, none]
    let jac2 := if inp.clear_matrices ≠ 0 then emptyMat else o.jacobian
    let dxdy2 := if inp.clear_matrices ≠ 0 then emptyMat else o.dxdy
    (Except.ok
      { x := some o.x, xa := xa, yf := o.yf, jacobian := jac2, dxdy := some dxdy2,
        oem_diagnostics := diag, ml_ga_history := hist },
     [Event.fmCall true, Event.solverCall inp.method])

/-- Workspace method oem (m_oem.cc lines 538-733): validation, then
setup_xa, then the post-setup body.  The second component records the
agenda executions made by the oem body and the solver hand-off, in
order. -/
def oem (fm : Fm) (solv : Solvers) (interp : Interp) (inp : OemIn) :
    Except Err OemOut × List Event :=
  match oemChecks inp with
  | Except.error e => (Except.error e, [])
  | Except.ok _ =>
    match setup_xa interp inp.jacobian_quantities inp.jacobian_indices
        inp.atmosphere_dim inp.p_grid inp.lat_grid inp.lon_grid
        inp.t_field inp.vmr_field inp.abs_species with
    | Except.error e => (Except.error e, [])
    | Except.ok xa => oemAfterSetup fm solv inp xa

/-- The ok part of an oem result. -/
def okPart : Except Err OemOut → Option OemOut
  | Except.ok o => some o
  | Except.error _ => none

/-- The diagnostics vector of a successful run. -/
def oemDiag (r : Except Err OemOut × List Event) : Option (List (Option ℚ)) :=
  (okPart r.1).map (fun o => o.oem_diagnostics)

/-- The first diagnostics slot (termination code) of a successful run. -/
def oemDiag0 (r : Except Err OemOut × List Event) : Option (Option ℚ) :=
  (okPart r.1).map (fun o => o.oem_diagnostics.getD 0 (some 0))

/-- The second diagnostics slot (start cost) of a successful run. -/
def oemDiag1 (r : Except Err OemOut × List Event) : Option (Option ℚ) :=
  (okPart r.1).map (fun o => o.oem_diagnostics.getD 1 (some 0))

/-- The state vector a successful run hands back (none when oem left it
undefined). -/
def oemX (r : Except Err OemOut × List Event) : Option (Option Vec) :=
  (okPart r.1).map (fun o => o.x)

/-- The gamma history a successful run hands back. -/
def oemHistory (r : Except Err OemOut × List Event) : Option (List (Option ℚ)) :=
  (okPart r.1).map (fun o => o.ml_ga_history)

/-- The recorded run events. -/
def oemEvents (r : Except Err OemOut × List Event) : List Event := r.2

/-- Concrete interpolation instance used by the witness runs: grid
positions land on the first source point and regridding is the
identity on the field (the legitimate case of coinciding grids). -/
def exInterp : Interp :=
  { gridpos := fun _ new _ => new.map (fun _ => { idx := 0, fd := 0 }),
    p2gridpos := fun _ new _ => new.map (fun _ => { idx := 0, fd := 0 }),
    regrid := fun _ f _ _ _ => f }

/-- A 1 x 1 x 1 temperature field of 250 K. -/
def exT : Tensor3 := { npages := 1, nrows := 1, ncols := 1, entry := fun _ _ _ => 250 }

/-- A 1 x 1 x 1 x 1 mixing-ratio field of 1. -/
def exVmr : Tensor4 :=
  { nbooks := 1, npages := 1, nrows := 1, ncols := 1, entry := fun _ _ _ _ => 1 }

/-- A temperature retrieval quantity on a one-point pressure grid. -/
def qTemp : RetrievalQuantity :=
  { maintag := TEMPERATURE_MAINTAG, subtag := "", mode := "", grids := [[1000]] }

/-- An absorption-species quantity in rel mode. -/
def qRel : RetrievalQuantity :=
  { maintag := ABSSPECIES_MAINTAG, subtag := "H2O", mode := "rel", grids := [[1000]] }

/-- An absorption-species quantity in nd mode. -/
def qNd : RetrievalQuantity :=
  { maintag := ABSSPECIES_MAINTAG, subtag := "H2O", mode := "nd", grids := [[1000]] }

/-- An absorption-species quantity with an unit mode outside rel, vmr
and nd. -/
def qBadMode : RetrievalQuantity :=
  { maintag := ABSSPECIES_MAINTAG, subtag := "H2O", mode := "xx", grids := [[1000]] }

/-- A quantity whose main tag is handled by neither codec branch. -/
def qBadTag : RetrievalQuantity :=
  { maintag := "Wind", subtag := "", mode := "", grids := [[1000]] }

/-- The 1 x 1 identity matrix. -/
def exMat1 : Mat := { nrows := 1, ncols := 1, entry := fun _ _ => 1 }

/-- A fixed solver outcome for the witness runs. -/
def exOutcome : SolverOutcome :=
  { code := 0, x := [7], dxdy := exMat1, jacobian := exMat1, yf := [5],
    cost_y := 2, cost_x := 3, used_iter := 1 }

/-- Solver bundle returning the fixed outcome for every method. -/
def exSolvers : Solvers := { li := exOutcome, gn := exOutcome, lm := exOutcome }

/-- An identity forward model: the measurement is the state itself. -/
def exFm : Fm := fun x _ => (x, exMat1)

/-- A baseline valid oem input: one temperature quantity on a one-point
grid matching the atmosphere, 1 x 1 covariances, Gauss-Newton, progress
display off and no start-cost ceiling. -/
def exIn : OemIn :=
  { y := [10], covmat_sx_inv := exMat1, covmat_so_inv := exMat1,
    jacobian_do := 1, jacobian_quantities := [qTemp], jacobian_indices := [(0, 0)],
    atmosphere_dim := 1, p_grid := [1000], lat_grid := [], lon_grid := [],
    t_field := exT, vmr_field := exVmr, abs_species := ["H2O"],
    method := "gn", max_start_cost := 0, x_norm := [],
    max_iter := 2, stop_dx := 1, ml_ga_settings := [1, 2, 3, 4, 5, 6],
    clear_matrices := 0, display_progress := 0 }

/-- The baseline input with a positive start-cost ceiling the a-priori
cost exceeds (a-priori cost is 57600). -/
def exInGuard : OemIn := { exIn with max_start_cost := 1 }

/-- The baseline input run with the Levenberg-Marquardt variant lm. -/
def exInLm : OemIn := { exIn with method := "lm" }

/-- The baseline input run with the Levenberg-Marquardt variant ml. -/
def exInMl : OemIn := { exIn with method := "ml" }

/-- The lm input with an ill-formed (empty) ml_ga_settings vector. -/
def exInLmBad : OemIn := { exIn with method := "lm", ml_ga_settings := [] }

/-- The ml input with an ill-formed (empty) ml_ga_settings vector. -/
def exInMlBad : OemIn := { exIn with method := "ml", ml_ga_settings := [] }

/-- The baseline input with a method string outside the four options. -/
def exInBadMethod : OemIn := { exIn with method := "xx" }

deriving instance DecidableEq for Except

theorem optFoldl_append (f : β → α → Option β) (l1 l2 : List α) (b : β) :
    optFoldl f b (l1 ++ l2) =
      match optFoldl f b l1 with
      | none => none
      | some b2 => optFoldl f b2 l2 := by
  induction l1 generalizing b with
  | nil => simp [optFoldl]
  | cons a l ih =>
    simp only [List.cons_append, optFoldl]
    cases h : f b a with
    | none => rfl
    | some b2 => exact ih b2

theorem optFoldl_stop (f : β → α → Option β) (h : ∀ b a, f b a = none) (b : β)
    (l : List α) (hl : l ≠ []) : optFoldl f b l = none := by
  cases l with
  | nil => exact absurd rfl hl
  | cons a t => simp [optFoldl, h]

theorem loop3le_fail (P R C : ℕ) (body : β → ℕ → ℕ → ℕ → Option β) (init : β)
    (h : ∀ st i2 i3, body st P i2 i3 = none) :
    loop3le P R C body init = none := by
  have inner : ∀ (st : β) (i2 i3 : ℕ),
      optFoldl (fun st3 i1 => body st3 i1 i2 i3) st (List.range (P + 1)) = none := by
    intro st i2 i3
    rw [show P + 1 = Nat.succ P from rfl, List.range_succ, optFoldl_append]
    cases hpre : optFoldl (fun st3 i1 => body st3 i1 i2 i3) st (List.range P) with
    | none => rfl
    | some b2 => simp [optFoldl, h]
  have middle : ∀ (st : β) (i3 : ℕ),
      optFoldl
        (fun st2 i2 => optFoldl (fun st3 i1 => body st3 i1 i2 i3) st2 (List.range (P + 1)))
        st (List.range (R + 1)) = none := by
    intro st i3
    apply optFoldl_stop
    · intro b a; exact inner b a i3
    · simp
  unfold loop3le
  apply optFoldl_stop
  · intro b a; exact middle b a
  · simp

theorem qmin_le_left (a b : ℚ) : qmin a b ≤ a := by
  unfold qmin
  split_ifs with h
  · exact le_refl a
  · exact le_of_not_le h

theorem qmin_le_right (a b : ℚ) : qmin a b ≤ b := by
  unfold qmin
  split_ifs with h
  · exact h
  · exact le_refl b

theorem foldl_min_le_init (xs : Vec) (a : ℚ) : xs.foldl qmin a ≤ a := by
  induction xs generalizing a with
  | nil => exact le_refl a
  | cons x t ih => exact le_trans (ih (qmin a x)) (qmin_le_left a x)

theorem foldl_min_le_mem {v : ℚ} {xs : Vec} (hv : v ∈ xs) (a : ℚ) :
    xs.foldl qmin a ≤ v := by
  induction xs generalizing a with
  | nil => cases hv
  | cons x t ih =>
    rcases List.mem_cons.mp hv with h | h
    · subst h
      exact le_trans (foldl_min_le_init t (qmin a v)) (qmin_le_right a v)
    · exact ih h (qmin a x)

theorem vecMin_le {v : ℚ} {l : Vec} (h : v ∈ l) : vecMin l ≤ v := by
  cases l with
  | nil => cases h
  | cons x t =>
    rcases List.mem_cons.mp h with h2 | h2
    · subst h2; exact foldl_min_le_init t v
    · exact foldl_min_le_mem h2 x

theorem firstError_shape (items : List (Bool × String))
    (hmsg : ∀ p ∈ items, 0 < p.2.length) :
    firstError items = Except.ok () ∨
      ∃ msg, firstError items = Except.error (Err.runtimeError msg) ∧ 0 < msg.length := by
  induction items with
  | nil => exact Or.inl rfl
  | cons p rest ih =>
    by_cases hb : p.1 = true
    · exact Or.inr ⟨p.2, by simp [firstError, hb], hmsg p (List.mem_cons_self p rest)⟩
    · have : firstError (p :: rest) = firstError rest := by
        simp [firstError, hb]
      rw [this]
      exact ih (fun q hq => hmsg q (List.mem_cons_of_mem p hq))

theorem sndLenPos {b : Bool} {s : String} (h : 0 < s.length) :
    0 < ((b, s) : Bool × String).2.length := h

theorem firstError_ok_nth (items : List (Bool × String))
    (h : firstError items = Except.ok ()) (k : ℕ) :
    (items.getD k (false, "")).1 = false := by
  induction items generalizing k with
  | nil => simp [List.getD]
  | cons q rest ih =>
    have hq : q.1 = false := by
      by_cases hb : q.1 = true
      · rw [firstError, if_pos hb] at h
        cases h
      · exact Bool.eq_false_iff.mpr hb
    have hrest : firstError rest = Except.ok () := by
      rw [firstError, if_neg (by rw [hq]; exact Bool.false_ne_true)] at h
      exact h
    cases k with
    | zero => simpa [List.getD] using hq
    | succ n => simpa [List.getD] using ih hrest n

theorem oemChecks_shape (inp : OemIn) :
    oemChecks inp = Except.ok () ∨
      ∃ msg, oemChecks inp = Except.error (Err.runtimeError msg) ∧ 0 < msg.length := by
  apply firstError_shape
  intro p hp
  simp only [oemCheckItems, List.mem_cons, List.not_mem_nil, or_false] at hp
  rcases hp with h|h|h|h|h|h|h|h|h|h|h|h|h|h|h|h <;>
    (subst h; exact sndLenPos (by decide))

theorem oemChecks_ok_conditions (inp : OemIn) (h : oemChecks inp = Except.ok ()) :
    inp.covmat_sx_inv.ncols = inp.covmat_sx_inv.nrows ∧
    inp.covmat_so_inv.ncols = inp.covmat_so_inv.nrows ∧
    inp.covmat_so_inv.ncols = inp.y.length ∧
    (inp.jacobian_indices.getD (inp.jacobian_quantities.length - 1) (0, 0)).2 + 1
      = inp.covmat_sx_inv.nrows ∧
    (inp.method = "li" ∨ inp.method = "gn" ∨ inp.method = "ml" ∨ inp.method = "lm") ∧
    0 < inp.max_iter ∧ 0 < inp.stop_dx ∧
    (inp.method = "ml" → inp.ml_ga_settings.length = 6) ∧
    (inp.method = "ml" → 0 ≤ vecMin inp.ml_ga_settings) := by
  have hnth := fun k => firstError_ok_nth (oemCheckItems inp) h k
  have d3 : decide (inp.covmat_sx_inv.ncols ≠ inp.covmat_sx_inv.nrows) = false := hnth 2
  have d4 : decide (inp.covmat_so_inv.ncols ≠ inp.covmat_so_inv.nrows) = false := hnth 3
  have d5 : decide (inp.covmat_so_inv.ncols ≠ inp.y.length) = false := hnth 4
  have d7 : decide ((inp.jacobian_indices.getD (inp.jacobian_quantities.length - 1) (0, 0)).2 + 1
      ≠ inp.covmat_sx_inv.nrows) = false := hnth 6
  have d8 : decide (¬(inp.method = "li" ∨ inp.method = "gn" ∨ inp.method = "ml" ∨
      inp.method = "lm")) = false := hnth 7
  have d11 : decide (inp.max_iter ≤ 0) = false := hnth 10
  have d12 : decide (inp.stop_dx ≤ 0) = false := hnth 11
  have d13 : decide (inp.method = "ml" ∧ inp.ml_ga_settings.length ≠ 6) = false := hnth 12
  have d14 : decide (inp.method = "ml" ∧ vecMin inp.ml_ga_settings < 0) = false := hnth 13
  have c3 := of_decide_eq_false d3
  have c4 := of_decide_eq_false d4
  have c5 := of_decide_eq_false d5
  have c7 := of_decide_eq_false d7
  have c8 := of_decide_eq_false d8
  have c11 := of_decide_eq_false d11
  have c12 := of_decide_eq_false d12
  have c13 := of_decide_eq_false d13
  have c14 := of_decide_eq_false d14
  exact ⟨not_not.mp c3, not_not.mp c4, not_not.mp c5, not_not.mp c7, not_not.mp c8,
    not_le.mp c11, not_le.mp c12,
    fun hm => not_not.mp (fun hne => c13 ⟨hm, hne⟩),
    fun hm => not_lt.mp (fun hlt => c14 ⟨hm, hlt⟩)⟩

theorem oem_error_of_checks (fm : Fm) (solv : Solvers) (interp : Interp) (inp : OemIn)
    (e : Err) (h : oemChecks inp = Except.error e) :
    oem fm solv interp inp = (Except.error e, []) := by
  unfold oem
  rw [h]

theorem unhandledMsg_len (tag : String) : 0 < (unhandledMsg tag).length := by
  unfold unhandledMsg
  rw [String.length_append]
  have h : 0 < ("Found a retrieval quantity that is not yet handled by\ninternal retrievals: ").length := by decide
  omega

theorem oem_after_setup (fm : Fm) (solv : Solvers) (interp : Interp) (inp : OemIn)
    (xa0 : Vec) (hchk : oemChecks inp = Except.ok ())
    (hxa : setup_xa interp inp.jacobian_quantities inp.jacobian_indices
      inp.atmosphere_dim inp.p_grid inp.lat_grid inp.lon_grid
      inp.t_field inp.vmr_field inp.abs_species = Except.ok xa0) :
    oem fm solv interp inp = oemAfterSetup fm solv inp xa0 := by
  unfold oem
  rw [hchk, hxa]

theorem oemAfterSetup_guard (fm : Fm) (solv : Solvers) (inp : OemIn) (xa : Vec)
    (hmax : 0 < inp.max_start_cost)
    (hcost : inp.max_start_cost <
      oem_cost_y inp.y (fm xa true).1 inp.covmat_so_inv (inp.y.length : ℚ)) :
    oemAfterSetup fm solv inp xa =
      (Except.ok
        { x := none, xa := xa, yf := (fm xa true).1, jacobian := (fm xa true).2,
          dxdy := none,
          oem_diagnostics := [some 99,
            some (oem_cost_y inp.y (fm xa true).1 inp.covmat_so_inv (inp.y.length : ℚ)),
            none, none, none],
          ml_ga_history :=
            if inp.method = "ml" then List.replicate inp.max_iter.toNat none else [] },
       [Event.fmCall true]) := by
  have hcond : inp.method = "ml" ∨ inp.method = "lm" ∨ inp.display_progress ≠ 0 ∨
      0 < inp.max_start_cost := Or.inr (Or.inr (Or.inr hmax))
  simp only [oemAfterSetup, if_pos hcond]
  rw [if_pos (And.intro hmax (by simp only [optGT, decide_eq_true_eq]; exact hcost))]

theorem oemAfterSetup_hist (fm : Fm) (solv : Solvers) (inp : OemIn) (xa : Vec) :
    oemHistory (oemAfterSetup fm solv inp xa) =
      some (if inp.method = "ml" then List.replicate inp.max_iter.toNat none else []) := by
  simp only [oemAfterSetup]
  split <;> first
    | rfl
    | (split <;> rfl)

theorem oemAfterSetup_noguard_events (fm : Fm) (solv : Solvers) (inp : OemIn) (xa : Vec)
    (hmax : inp.max_start_cost ≤ 0) :
    oemEvents (oemAfterSetup fm solv inp xa) =
      [Event.fmCall true, Event.solverCall inp.method] := by
  simp only [oemAfterSetup]
  rw [if_neg (fun hc => absurd hc.1 (not_lt.mpr hmax))]
  rfl

theorem oemAfterSetup_lm_diag0 (fm : Fm) (solv : Solvers) (inp : OemIn) (xa : Vec)
    (hli : ¬(inp.method = "li")) (hgn : ¬(inp.method = "gn"))
    (hmax : inp.max_start_cost ≤ 0) :
    oemDiag0 (oemAfterSetup fm solv inp xa) = some none := by
  simp only [oemAfterSetup]
  rw [if_neg (fun hc => absurd hc.1 (not_lt.mpr hmax))]
  simp only [if_neg hli, if_neg hgn]
  rfl

/-- Evaluation of the a-priori cost of the baseline witness run: y is
10, the simulated measurement at xa is 250, the observation precision
is the 1 x 1 identity and m = 1, giving (10 - 250)^2 = 57600. -/
theorem exGuardCost :
    oem_cost_y exInGuard.y (exFm [250] true).1 exInGuard.covmat_so_inv
      ((exInGuard.y.length : ℕ) : ℚ) = 57600 := by
  simp only [exInGuard, exIn, exFm, exMat1, oem_cost_y, quadForm, vecSub]
  norm_num [List.range_succ]

/-- Claim C1 (amended): when max_start_cost is positive and the
a-priori cost exceeds it, oem terminates with diagnostic code 99 in
oem_diagnostics[0], leaves x undefined and hands nothing to a solver
(no iteration); the only forward-model execution of the run is the
single a-priori call, which does request the Jacobian path. -/
theorem oem_start_cost_guard (fm : Fm) (solv : Solvers) (interp : Interp)
    (inp : OemIn) (xa0 : Vec)
    (hchk : oemChecks inp = Except.ok ())
    (hxa : setup_xa interp inp.jacobian_quantities inp.jacobian_indices
      inp.atmosphere_dim inp.p_grid inp.lat_grid inp.lon_grid
      inp.t_field inp.vmr_field inp.abs_species = Except.ok xa0)
    (hmax : 0 < inp.max_start_cost)
    (hcost : inp.max_start_cost <
      oem_cost_y inp.y (fm xa0 true).1 inp.covmat_so_inv (inp.y.length : ℚ)) :
    oemDiag0 (oem fm solv interp inp) = some (some 99) ∧
    oemX (oem fm solv interp inp) = some none ∧
    oemEvents (oem fm solv interp inp) = [Event.fmCall true] := by
  rw [oem_after_setup fm solv interp inp xa0 hchk hxa,
    oemAfterSetup_guard fm solv inp xa0 hmax hcost]
  exact ⟨rfl, rfl, rfl⟩

/-- Witness for C1 at a concrete run: one temperature quantity,
identity forward model, a-priori cost 57600 against ceiling 1. -/
theorem oem_start_cost_guard_witness :
    oemDiag0 (oem exFm exSolvers exInterp exInGuard) = some (some 99) ∧
    oemX (oem exFm exSolvers exInterp exInGuard) = some none ∧
    oemEvents (oem exFm exSolvers exInterp exInGuard) = [Event.fmCall true] :=
  oem_start_cost_guard exFm exSolvers exInterp exInGuard [250]
    (by decide) (by decide) (by decide) (by rw [exGuardCost]; decide)

/-- Counterexample for C1 as stated: in the very run that aborts with
the high-start-cost code 99, the recorded events contain a
Jacobian-path forward-model call (the a-priori evaluation at
m_oem.cc line 627), contradicting the claim that the Jacobian path is
never invoked. -/
theorem oem_start_cost_guard_cex :
    oemDiag0 (oem exFm exSolvers exInterp exInGuard) = some (some 99) ∧
    Event.fmCall true ∈ oemEvents (oem exFm exSolvers exInterp exInGuard) := by
  rw [oem_after_setup exFm exSolvers exInterp exInGuard [250] (by decide) (by decide),
    oemAfterSetup_guard exFm exSolvers exInGuard [250] (by decide)
      (by rw [exGuardCost]; decide)]
  exact ⟨rfl, List.mem_cons_self _ _⟩

/-- Claim C2 (code_bug): a validated oem run with method lm or ml whose
start-cost guard does not trip hands control to the
Levenberg-Marquardt branch, which never assigns oem_diagnostics[0]
(m_oem.cc lines 709-724, unlike the li and gn branches), so the
termination-code slot keeps its NaN initialisation even on success. -/
theorem oem_lm_code_left_nan (fm : Fm) (solv : Solvers) (interp : Interp)
    (inp : OemIn) (xa0 : Vec)
    (hchk : oemChecks inp = Except.ok ())
    (hxa : setup_xa interp inp.jacobian_quantities inp.jacobian_indices
      inp.atmosphere_dim inp.p_grid inp.lat_grid inp.lon_grid
      inp.t_field inp.vmr_field inp.abs_species = Except.ok xa0)
    (hm : inp.method = "lm" ∨ inp.method = "ml")
    (hmax : inp.max_start_cost ≤ 0) :
    oemDiag0 (oem fm solv interp inp) = some none ∧
    oemEvents (oem fm solv interp inp) =
      [Event.fmCall true, Event.solverCall inp.method] := by
  have hli : ¬(inp.method = "li") := by
    rcases hm with h | h <;> (rw [h]; decide)
  have hgn : ¬(inp.method = "gn") := by
    rcases hm with h | h <;> (rw [h]; decide)
  rw [oem_after_setup fm solv interp inp xa0 hchk hxa]
  exact ⟨oemAfterSetup_lm_diag0 fm solv inp xa0 hli hgn hmax,
    oemAfterSetup_noguard_events fm solv inp xa0 hmax⟩

/-- Witness for C2 at a concrete run: the validated lm run leaves
oem_diagnostics[0] at NaN while the solver was invoked. -/
theorem oem_lm_code_left_nan_witness :
    oemDiag0 (oem exFm exSolvers exInterp exInLm) = some none ∧
    oemEvents (oem exFm exSolvers exInterp exInLm) =
      [Event.fmCall true, Event.solverCall exInLm.method] :=
  oem_lm_code_left_nan exFm exSolvers exInterp exInLm [250]
    (by decide) (by decide) (Or.inl rfl) (by decide)

/-- Claim C3 (code_bug): the field-copy loops of the number-density
branch of setup_xa and of the rel and nd branches of x2arts_std run
their indices up to and including the tensor extents.  On a 1 x 1 x 1
tensor the loop visits (1,0,0), (0,1,0), (0,0,1) and so on, where the
first index equals npages() and likewise for the other dimensions, so
the very first retrieval quantity processed in nd mode trips the
bounds assertion of the tensor element access. -/
theorem codec_copy_loops_visit_out_of_range :
    loop3le 1 1 1 (fun acc i1 i2 i3 => some (acc ++ [(i1, i2, i3)]))
        ([] : List (ℕ × ℕ × ℕ)) =
      some [(0, 0, 0), (1, 0, 0), (0, 1, 0), (1, 1, 0),
            (0, 0, 1), (1, 0, 1), (0, 1, 1), (1, 1, 1)] ∧
    setup_xa exInterp [qNd] [(0, 0)] 1 [1000] [] [] exT exVmr ["H2O"] =
      Except.error Err.assertionFailure := by
  decide

/-- Claim C4 (confirmed): a call to oem with a non-square or
dimensionally inconsistent covariance matrix, a method string outside
the four supported ones, max_iter at most 0 or stop_dx at most 0
raises a descriptive runtime error and performs no forward-model
(inversion_iterate_agenda) execution at all. -/
theorem oem_validation_fails_fast (fm : Fm) (solv : Solvers) (interp : Interp)
    (inp : OemIn)
    (h : inp.covmat_sx_inv.ncols ≠ inp.covmat_sx_inv.nrows ∨
         inp.covmat_so_inv.ncols ≠ inp.covmat_so_inv.nrows ∨
         inp.covmat_so_inv.ncols ≠ inp.y.length ∨
         (inp.jacobian_indices.getD (inp.jacobian_quantities.length - 1) (0, 0)).2 + 1
           ≠ inp.covmat_sx_inv.nrows ∨
         ¬(inp.method = "li" ∨ inp.method = "gn" ∨ inp.method = "ml" ∨
           inp.method = "lm") ∨
         inp.max_iter ≤ 0 ∨ inp.stop_dx ≤ 0) :
    ∃ msg, oem fm solv interp inp = (Except.error (Err.runtimeError msg), []) ∧
      0 < msg.length := by
  rcases oemChecks_shape inp with hok | ⟨msg, herr, hlen⟩
  · exfalso
    obtain ⟨c1, c2, c3, c4, c5, c6, c7, _, _⟩ := oemChecks_ok_conditions inp hok
    rcases h with h | h | h | h | h | h | h
    · exact h c1
    · exact h c2
    · exact h c3
    · exact h c4
    · exact h c5
    · exact absurd c6 (not_lt.mpr h)
    · exact absurd c7 (not_lt.mpr h)
  · exact ⟨msg, oem_error_of_checks fm solv interp inp _ herr, hlen⟩

/-- Witness for C4 at a concrete input: the method string xx is
rejected before any forward-model call. -/
theorem oem_validation_fails_fast_witness :
    ∃ msg, oem exFm exSolvers exInterp exInBadMethod =
        (Except.error (Err.runtimeError msg), []) ∧ 0 < msg.length :=
  oem_validation_fails_fast exFm exSolvers exInterp exInBadMethod
    (Or.inr (Or.inr (Or.inr (Or.inr (Or.inl (by decide))))))

/-- Claim C5 (amended): with method ml, an ml_ga_settings vector whose
length differs from 6 or that contains a negative entry makes oem fail
fast with a descriptive error and no forward-model call; with method
lm the code performs no such validation (the check at m_oem.cc
line 606 is conditioned on method == "ml" only). -/
theorem oem_ml_settings_fail_fast (fm : Fm) (solv : Solvers) (interp : Interp)
    (inp : OemIn)
    (hm : inp.method = "ml")
    (hbad : inp.ml_ga_settings.length ≠ 6 ∨ ∃ v ∈ inp.ml_ga_settings, v < 0) :
    ∃ msg, oem fm solv interp inp = (Except.error (Err.runtimeError msg), []) ∧
      0 < msg.length := by
  rcases oemChecks_shape inp with hok | ⟨msg, herr, hlen⟩
  · exfalso
    obtain ⟨_, _, _, _, _, _, _, c8, c9⟩ := oemChecks_ok_conditions inp hok
    rcases hbad with h | ⟨v, hv, hneg⟩
    · exact h (c8 hm)
    · exact absurd (le_trans (c9 hm) (vecMin_le hv)) (not_le.mpr hneg)
  · exact ⟨msg, oem_error_of_checks fm solv interp inp _ herr, hlen⟩

/-- Witness for C5 at a concrete input: with method ml an empty
ml_ga_settings vector is rejected before any computation. -/
theorem oem_ml_settings_fail_fast_witness :
    ∃ msg, oem exFm exSolvers exInterp exInMlBad =
        (Except.error (Err.runtimeError msg), []) ∧ 0 < msg.length :=
  oem_ml_settings_fail_fast exFm exSolvers exInterp exInMlBad rfl
    (Or.inl (by decide))

/-- Counterexample for C5 as stated: the same ill-formed (empty)
ml_ga_settings vector passes validation untouched when the method is
the lm variant; the run proceeds to the a-priori forward call and the
Levenberg-Marquardt solver instead of failing fast. -/
theorem oem_lm_settings_not_validated_cex :
    oemDiag0 (oem exFm exSolvers exInterp exInLmBad) = some none ∧
    oemEvents (oem exFm exSolvers exInterp exInLmBad) =
      [Event.fmCall true, Event.solverCall "lm"] := by
  have hr := oem_after_setup exFm exSolvers exInterp exInLmBad [250]
    (by decide) (by decide)
  rw [hr]
  exact ⟨oemAfterSetup_lm_diag0 exFm exSolvers exInLmBad [250]
      (by decide) (by decide) (by decide),
    oemAfterSetup_noguard_events exFm exSolvers exInLmBad [250] (by decide)⟩

/-- Claim C6 (code_bug): with the lm variant, ml_ga_history is resized
to length 0 (m_oem.cc line 641) although max_iter iterations are
possible, and with the ml variant it is sized to max_iter and
initialised to NaN but never passed to oem_levenberg_marquardt
(lines 719-723), so after a completed run it still holds only NaNs:
the per-iteration gamma values are not retained for either variant.
Here max_iter is 2 for both runs. -/
theorem oem_ml_ga_history_not_recorded :
    oemHistory (oem exFm exSolvers exInterp exInLm) = some [] ∧
    oemHistory (oem exFm exSolvers exInterp exInMl) = some [none, none] := by
  have h1 := oem_after_setup exFm exSolvers exInterp exInLm [250]
    (by decide) (by decide)
  have h2 := oem_after_setup exFm exSolvers exInterp exInMl [250]
    (by decide) (by decide)
  rw [h1, h2, oemAfterSetup_hist, oemAfterSetup_hist]
  exact ⟨by decide, by decide⟩

/-- Claim C7 (amended): for a validated oem run the start cost is
computed and stored in oem_diagnostics[1] whenever the method is ml or
lm, or display_progress is on, or max_start_cost is positive; in the
remaining configurations (li or gn with display_progress off and no
start-cost ceiling), the slot is left at its NaN initialisation. -/
theorem oem_start_cost_recorded (fm : Fm) (solv : Solvers) (interp : Interp)
    (inp : OemIn) (xa0 : Vec)
    (hchk : oemChecks inp = Except.ok ())
    (hxa : setup_xa interp inp.jacobian_quantities inp.jacobian_indices
      inp.atmosphere_dim inp.p_grid inp.lat_grid inp.lon_grid
      inp.t_field inp.vmr_field inp.abs_species = Except.ok xa0)
    (hcond : inp.method = "ml" ∨ inp.method = "lm" ∨ inp.display_progress ≠ 0 ∨
      0 < inp.max_start_cost) :
    oemDiag1 (oem fm solv interp inp) =
      some (some (oem_cost_y inp.y (fm xa0 true).1 inp.covmat_so_inv
        (inp.y.length : ℚ))) := by
  rw [oem_after_setup fm solv interp inp xa0 hchk hxa]
  simp only [oemAfterSetup, if_pos hcond]
  split
  · rfl
  · by_cases hli : inp.method = "li"
    · simp only [if_pos hli]
      rfl
    · by_cases hgn : inp.method = "gn"
      · simp only [if_neg hli, if_pos hgn]
        rfl
      · simp only [if_neg hli, if_neg hgn]
        rfl

/-- Witness for C7 at a concrete run: the lm run stores the start cost
in the second diagnostics slot. -/
theorem oem_start_cost_recorded_witness :
    oemDiag1 (oem exFm exSolvers exInterp exInLm) =
      some (some (oem_cost_y exInLm.y (exFm [250] true).1 exInLm.covmat_so_inv
        ((exInLm.y.length : ℕ) : ℚ))) :=
  oem_start_cost_recorded exFm exSolvers exInterp exInLm [250]
    (by decide) (by decide) (Or.inr (Or.inl rfl))

/-- Counterexample for C7 as stated: a validated gn run with
display_progress off and max_start_cost 0 terminates successfully with
a termination code recorded, yet oem_diagnostics[1] is left at NaN —
the start cost is not computed regardless of settings. -/
theorem oem_start_cost_skipped_cex :
    oemDiag0 (oem exFm exSolvers exInterp exIn) = some (some 0) ∧
    oemDiag1 (oem exFm exSolvers exInterp exIn) = some none ∧
    oemEvents (oem exFm exSolvers exInterp exIn) =
      [Event.fmCall true, Event.solverCall "gn"] := by
  have hr := oem_after_setup exFm exSolvers exInterp exIn [250]
    (by decide) (by decide)
  rw [hr]
  have hng : ¬(0 < exIn.max_start_cost ∧
      optGT (if exIn.method = "ml" ∨ exIn.method = "lm" ∨ exIn.display_progress ≠ 0 ∨
          0 < exIn.max_start_cost then
        some (oem_cost_y exIn.y ((exFm [250] true).1) exIn.covmat_so_inv
          ((exIn.y.length : ℕ) : ℚ))
      else none) exIn.max_start_cost = true) := by
    intro hc
    exact absurd hc.1 (by decide)
  simp only [oemAfterSetup, if_neg hng]
  refine ⟨?_, ?_, rfl⟩
  · simp only [oemDiag0, okPart]
    rw [if_neg (by decide : ¬(exIn.method = "li")), if_pos (by decide : exIn.method = "gn")]
    rfl
  · simp only [oemDiag1, okPart]
    rw [if_neg (by decide : ¬(exIn.method = "li")), if_pos (by decide : exIn.method = "gn")]
    rw [if_neg (by decide : ¬(exIn.method = "ml" ∨ exIn.method = "lm" ∨
      exIn.display_progress ≠ 0 ∨ 0 < exIn.max_start_cost))]
    rfl

theorem setup_xa_singleton_err (interp : Interp) (q : RetrievalQuantity)
    (ji0 ji1 : ℕ) (dim : ℕ) (pg lg long : Vec) (tf : Tensor3) (vf : Tensor4)
    (species : List String) (e : Err)
    (h : setupXaQ interp q (ji0, ji1) dim pg lg long tf vf species
      (List.replicate (ji1 + 1) 0) = Except.error e) :
    setup_xa interp [q] [(ji0, ji1)] dim pg lg long tf vf species =
      Except.error e := by
  have step : setup_xa interp [q] [(ji0, ji1)] dim pg lg long tf vf species =
      (match setupXaQ interp q (ji0, ji1) dim pg lg long tf vf species
          (List.replicate (ji1 + 1) 0) with
       | Except.error e2 => Except.error e2
       | Except.ok xa2 =>
         setupXaLoop interp dim pg lg long tf vf species [] [] xa2) := rfl
  rw [step, h]

theorem x2arts_std_singleton (interp : Interp) (q : RetrievalQuantity)
    (ji0 ji1 : ℕ) (x : Vec) (dim : ℕ) (pg lg long : Vec)
    (species : List String) (vf : Tensor4) (tf : Tensor3)
    (hx : x.length = ji1 + 1) (e : Err)
    (h : x2artsQ interp q (ji0, ji1) x dim pg lg long species vf tf =
      Except.error e) :
    x2arts_std interp [q] [(ji0, ji1)] x dim pg lg long species vf tf =
      Except.error e := by
  have step : x2arts_std interp [q] [(ji0, ji1)] x dim pg lg long species vf tf =
      (if x.length = ji1 + 1 then
        (match x2artsQ interp q (ji0, ji1) x dim pg lg long species vf tf with
         | Except.error e2 => Except.error e2
         | Except.ok st2 =>
           x2artsLoop interp x dim pg lg long species [] [] st2)
      else
        Except.error (Err.runtimeError
          "Length of *x* does not match information in *jacobian_quantities*.")) := rfl
  rw [step, if_pos hx, h]

/-- Claim C8 (amended): a retrieval quantity whose main tag is neither
the temperature nor the absorption-species tag makes both setup_xa and
x2arts_std abort with a descriptive runtime error; x2arts_std aborts
with a descriptive runtime error when the state-vector length does not
equal the final jacobian index plus one; but an absorption-species
quantity with a unit mode outside rel, vmr and nd aborts both codecs
through the bare assert(0) fallback, which carries no message (and is
compiled out of release builds), not through a descriptive error. -/
theorem codec_fatal_error_reporting :
    (∀ (interp : Interp) (q : RetrievalQuantity) (ji0 ji1 : ℕ) (dim : ℕ)
        (pg lg long : Vec) (tf : Tensor3) (vf : Tensor4) (species : List String)
        (x : Vec),
      ¬(q.maintag = TEMPERATURE_MAINTAG) → ¬(q.maintag = ABSSPECIES_MAINTAG) →
      (setup_xa interp [q] [(ji0, ji1)] dim pg lg long tf vf species =
          Except.error (Err.runtimeError (unhandledMsg q.maintag)) ∧
        0 < (unhandledMsg q.maintag).length) ∧
      (x.length = ji1 + 1 →
        x2arts_std interp [q] [(ji0, ji1)] x dim pg lg long species vf tf =
          Except.error (Err.runtimeError (unhandledMsg q.maintag)))) ∧
    (∀ (interp : Interp) (jq : List RetrievalQuantity) (ji : List (ℕ × ℕ))
        (lastji : ℕ × ℕ) (x : Vec) (dim : ℕ) (pg lg long : Vec)
        (species : List String) (vf : Tensor4) (tf : Tensor3),
      0 < jq.length → ji.get? (jq.length - 1) = some lastji →
      ¬(x.length = lastji.2 + 1) →
      x2arts_std interp jq ji x dim pg lg long species vf tf =
        Except.error (Err.runtimeError
          "Length of *x* does not match information in *jacobian_quantities*.")) ∧
    (∀ (interp : Interp) (q : RetrievalQuantity) (ji0 ji1 : ℕ) (dim : ℕ)
        (pg lg long : Vec) (tf : Tensor3) (vf : Tensor4) (species : List String)
        (x : Vec) (i : ℕ),
      q.maintag = ABSSPECIES_MAINTAG →
      chk_contains_species species q.subtag = Except.ok i →
      ¬(q.mode = "rel") → ¬(q.mode = "vmr") → ¬(q.mode = "nd") →
      setup_xa interp [q] [(ji0, ji1)] dim pg lg long tf vf species =
        Except.error Err.assertionFailure ∧
      (x.length = ji1 + 1 →
        x2arts_std interp [q] [(ji0, ji1)] x dim pg lg long species vf tf =
          Except.error Err.assertionFailure)) := by
  refine ⟨?_, ?_, ?_⟩
  · intro interp q ji0 ji1 dim pg lg long tf vf species x h1 h2
    have hQ : setupXaQ interp q (ji0, ji1) dim pg lg long tf vf species
        (List.replicate (ji1 + 1) 0) =
        Except.error (Err.runtimeError (unhandledMsg q.maintag)) := by
      simp only [setupXaQ, if_neg h1, if_neg h2]
    have hQ2 : x2artsQ interp q (ji0, ji1) x dim pg lg long species vf tf =
        Except.error (Err.runtimeError (unhandledMsg q.maintag)) := by
      simp only [x2artsQ, if_neg h1, if_neg h2]
    exact ⟨⟨setup_xa_singleton_err interp q ji0 ji1 dim pg lg long tf vf species _ hQ,
        unhandledMsg_len q.maintag⟩,
      fun hx => x2arts_std_singleton interp q ji0 ji1 x dim pg lg long species vf tf
        hx _ hQ2⟩
  · intro interp jq ji lastji x dim pg lg long species vf tf hq hget hx
    unfold x2arts_std
    rw [if_neg (by omega : ¬(jq.length = 0)), hget]
    exact if_neg hx
  · intro interp q ji0 ji1 dim pg lg long tf vf species x i hA hsp hrel hvmr hnd
    have hT : ¬(q.maintag = TEMPERATURE_MAINTAG) := by
      rw [hA]; decide
    have hQ : setupXaQ interp q (ji0, ji1) dim pg lg long tf vf species
        (List.replicate (ji1 + 1) 0) = Except.error Err.assertionFailure := by
      simp only [setupXaQ, if_neg hT, if_pos hA, hsp, if_neg hrel, if_neg hvmr,
        if_neg hnd]
    have hQ2 : x2artsQ interp q (ji0, ji1) x dim pg lg long species vf tf =
        Except.error Err.assertionFailure := by
      simp only [x2artsQ, if_neg hT, if_pos hA, hsp, if_neg hrel, if_neg hvmr,
        if_neg hnd]
    exact ⟨setup_xa_singleton_err interp q ji0 ji1 dim pg lg long tf vf species _ hQ,
      fun hx => x2arts_std_singleton interp q ji0 ji1 x dim pg lg long species vf tf
        hx _ hQ2⟩

/-- Witness for C8 at concrete inputs: an unhandled main tag gives the
descriptive error in setup_xa; a state vector of length 2 against a
final jacobian index of 0 gives the descriptive length error in
x2arts_std; an absorption-species quantity with unit mode xx aborts
setup_xa through the bare assertion. -/
theorem codec_fatal_error_reporting_witness :
    setup_xa exInterp [qBadTag] [(0, 0)] 1 [1000] [] [] exT exVmr ["H2O"] =
      Except.error (Err.runtimeError (unhandledMsg qBadTag.maintag)) ∧
    x2arts_std exInterp [qTemp] [(0, 0)] [1, 2] 1 [1000] [] [] ["H2O"] exVmr exT =
      Except.error (Err.runtimeError
        "Length of *x* does not match information in *jacobian_quantities*.") ∧
    setup_xa exInterp [qBadMode] [(0, 0)] 1 [1000] [] [] exT exVmr ["H2O"] =
      Except.error Err.assertionFailure := by
  refine ⟨?_, ?_, ?_⟩
  · exact (codec_fatal_error_reporting.1 exInterp qBadTag 0 0 1 [1000] [] [] exT
      exVmr ["H2O"] [] (by decide) (by decide)).1.1
  · exact codec_fatal_error_reporting.2.1 exInterp [qTemp] [(0, 0)] (0, 0) [1, 2] 1
      [1000] [] [] ["H2O"] exVmr exT (by decide) (by decide) (by decide)
  · exact (codec_fatal_error_reporting.2.2 exInterp qBadMode 0 0 1 [1000] [] [] exT
      exVmr ["H2O"] [] 0 (by decide) (by decide) (by decide) (by decide)
      (by decide)).1

/-- Counterexample for C8 as stated: for an absorption-species quantity
with unit mode xx, both codec directions end in the assert(0) fallback,
an assertion failure carrying no descriptive message, not the
descriptive fatal error the claim requires. -/
theorem codec_unknown_mode_no_message_cex :
    setup_xa exInterp [qBadMode] [(0, 0)] 1 [1000] [] [] exT exVmr ["H2O"] =
      Except.error Err.assertionFailure ∧
    x2arts_std exInterp [qBadMode] [(0, 0)] [1] 1 [1000] [] [] ["H2O"] exVmr exT =
      Except.error Err.assertionFailure :=
  ⟨by decide, rfl⟩

theorem ndLoop_fail (vmr_x t_x : Tensor3) (grid : Vec) (ji0 : ℕ) (xa : Vec) :
    loop3le vmr_x.npages vmr_x.nrows vmr_x.ncols
      (fun st i1 i2 i3 => do
        let v ← vmr_x.get i1 i2 i3
        let pv ← vecGet grid i1
        let tv ← t_x.get i1 i2 i3
        let xa2 ← vecSet st.1 (ji0 + st.2) (v * number_density pv tv)
        pure (xa2, st.2 + 1))
      (xa, (0 : ℕ)) = none := by
  apply loop3le_fail
  intro st i2 i3
  simp [Tensor3.get]

/-- Claim C9 (code_bug): for every retrieval quantity in nd mode whose
species is found in abs_species, the number-density branch of setup_xa
aborts on a failed bounds assertion before the block is filled: its
copy loop runs the page index up to and including npages() of the
regridded mixing-ratio field (m_oem.cc lines 384-386), so the element
read vmr_x(npages, i2, i3) violates the access contract of
matpackIII.h whatever the grids and fields are.  (When the species
index exceeds the books of vmr_field the asserted book view fails
instead, also an assertion failure.) -/
theorem setup_xa_nd_branch_aborts (interp : Interp) (q : RetrievalQuantity)
    (jiq : ℕ × ℕ) (dim : ℕ) (pg lg long : Vec) (tf : Tensor3) (vf : Tensor4)
    (species : List String) (xa : Vec) (i : ℕ)
    (hA : q.maintag = ABSSPECIES_MAINTAG) (hmode : q.mode = "nd")
    (hsp : chk_contains_species species q.subtag = Except.ok i) :
    setupXaQ interp q jiq dim pg lg long tf vf species xa =
      Except.error Err.assertionFailure := by
  have hT : ¬(q.maintag = TEMPERATURE_MAINTAG) := by
    rw [hA]; decide
  have hrel : ¬(q.mode = "rel") := by
    rw [hmode]; decide
  have hvmr : ¬(q.mode = "vmr") := by
    rw [hmode]; decide
  simp only [setupXaQ, if_neg hT, if_pos hA, hsp, if_neg hrel, if_neg hvmr,
    if_pos hmode]
  by_cases hb : i < vf.nbooks
  · rw [if_pos hb, ndLoop_fail]
    rfl
  · rw [if_neg hb]

/-- Witness for C9 at a concrete nd quantity on a one-point grid with
1 x 1 x 1 fields: the branch aborts with the assertion failure. -/
theorem setup_xa_nd_branch_aborts_witness :
    setupXaQ exInterp qNd (0, 0) 1 [1000] [] [] exT exVmr ["H2O"]
        (List.replicate 1 0) =
      Except.error Err.assertionFailure :=
  setup_xa_nd_branch_aborts exInterp qNd (0, 0) 1 [1000] [] [] exT exVmr ["H2O"]
    (List.replicate 1 0) 0 rfl rfl (by decide)

/-- Claim C10 (code_bug): the forward half of the claim holds — a rel
quantity contributes a block of ones to xa — but the round trip breaks:
applying x2arts_std to that all-ones block does not reproduce the vmr
field, because the in-place multiply loop of the rel branch runs its
indices up to and including the field extents (m_oem.cc lines 487-489)
and aborts on the bounds assertion of the element access. -/
theorem rel_mode_round_trip_broken :
    setup_xa exInterp [qRel] [(0, 0)] 1 [1000] [] [] exT exVmr ["H2O"] =
      Except.ok [1] ∧
    x2arts_std exInterp [qRel] [(0, 0)] [1] 1 [1000] [] [] ["H2O"] exVmr exT =
      Except.error Err.assertionFailure :=
  ⟨by decide, rfl⟩

end Arts
